import Mathlib

/-!
Verification of the PharmaConnect landing-page script (`src/app.js`).

The file shallowly embeds the scroll-progress controller, the per-section
activation handlers, the section fade-in toggle actions, the scrubbed
timeline seek, and the tab-switching handler, and proves or refutes the
specification claims about them.  Pixel measurements and animation
progress values are modelled as rationals.
-/

namespace PharmaConnect

/-! ### Scroll progress (`updateScrollProgress`, app.js lines 327-341) -/

/-- An indicator DOM element: the progress track (`.scroll-progress`) or the
dot (`.progress-dot`).  `clientHeight` is its measured height and `styleTop`
the current `style.top` value in pixels. -/
structure IndicatorElem where
  clientHeight : ℚ
  styleTop : ℚ
deriving DecidableEq, Repr

/-- The slice of the DOM that `updateScrollProgress` reads and writes:
scroll position and page metrics, plus the two elements obtained by
`document.querySelector` at load time (`null` becomes `none`). -/
structure ScrollDom where
  scrollY : ℚ
  bodyScrollHeight : ℚ
  innerHeight : ℚ
  progressContainer : Option IndicatorElem
  progressDot : Option IndicatorElem
deriving DecidableEq, Repr

/-- `const progress = docHeight > 0 ? scrollTop / docHeight : 0;`
(app.js line 333). -/
def computeProgress (scrollTop docHeight : ℚ) : ℚ :=
  if docHeight > 0 then scrollTop / docHeight else 0

/-- Clamp a rational to the interval [0, 1] (used only to state the
spec-side formula; the source has no clamping). -/
def clamp01 (x : ℚ) : ℚ := max 0 (min x 1)

/-- `function updateScrollProgress()` (app.js lines 330-338), step by step:
read `window.scrollY`, compute `docHeight` and `progress`, then dereference
`progressContainer.clientHeight` and `progressDot.clientHeight` — a `none`
element raises a TypeError there, before any write — and finally set
`progressDot.style.top`. -/
def updateScrollProgress (dom : ScrollDom) : Except String ScrollDom :=
  let scrollTop := dom.scrollY
  let docHeight := dom.bodyScrollHeight - dom.innerHeight
  let progress := computeProgress scrollTop docHeight
  match dom.progressContainer with
  | none => .error "TypeError: progressContainer is null"
  | some container =>
    let barHeight := container.clientHeight
    match dom.progressDot with
    | none => .error "TypeError: progressDot is null"
    | some dot =>
      let dotHeight := dot.clientHeight
      let yPos := progress * (barHeight - dotHeight) + dotHeight / 2
      .ok { dom with progressDot := some { dot with styleTop := yPos } }

/-- The dot offset of app.js line 336,
`yPos = progress * (barHeight - dotHeight) + dotHeight / 2`, as a function
of the DOM measurements (used to state what `updateScrollProgress`
writes). -/
def yPos (dom : ScrollDom) (container dot : IndicatorElem) : ℚ :=
  computeProgress dom.scrollY (dom.bodyScrollHeight - dom.innerHeight)
    * (container.clientHeight - dot.clientHeight) + dot.clientHeight / 2

/-! ### Section activation (`ScrollTrigger.create` handlers, app.js 197-225) -/

/-- Target scale of a section object, as a GSAP tween target
`\x7b x, y, z \x7d`. -/
structure ScaleTarget where
  x : ℚ
  y : ℚ
  z : ℚ
deriving DecidableEq, Repr

/-- The scale-target state of the six section objects
(`knot, aboutObj, investorsObj, pharmObj, processObj, signupObj`). -/
def SectionScales : Type := Fin 6 → ScaleTarget

/-- `onEnter` handler of section `i` (app.js lines 206-215): tween the
section object to scale `\x7b x: 1, y: 1, z: 1 \x7d` and every other
object (`otherObj !== obj`) to `\x7b x: 0, y: 0, z: 0 \x7d`. -/
def onEnter (i : Fin 6) (_s : SectionScales) : SectionScales :=
  fun j => if j = i then ⟨1, 1, 1⟩ else ⟨0, 0, 0⟩

/-- `onEnterBack` handler of section `i` (app.js lines 216-223): same body
as `onEnter`, embedded separately so the equivalence is a theorem. -/
def onEnterBack (i : Fin 6) (_s : SectionScales) : SectionScales :=
  fun j => if j = i then ⟨1, 1, 1⟩ else ⟨0, 0, 0⟩

/-! ### Section fade-in (`gsap.from` with toggleActions, app.js 272-286) -/

/-- The four boundary events a ScrollTrigger can fire for a section. -/
inductive ToggleEvent where
  | enter
  | leave
  | enterBack
  | leaveBack
deriving DecidableEq, Repr

/-- The action a ScrollTrigger takes on an event. -/
inductive ToggleAction where
  | play
  | nothing
  | reverse
deriving DecidableEq, Repr

/-- `toggleActions: 'play none none reverse'` (app.js line 283): the
four words give the actions for enter, leave, enterBack, leaveBack. -/
def sectionFadeAction : ToggleEvent → ToggleAction
  | .enter => .play
  | .leave => .nothing
  | .enterBack => .nothing
  | .leaveBack => .reverse

/-- Actions fired over a scroll trajectory (the events in order). -/
def fadeActions (tr : List ToggleEvent) : List ToggleAction :=
  tr.map sectionFadeAction

/-- The one-shot property the spec asserts of the fade-in mechanism: over
any trajectory that enters the section at least once, the reveal plays
exactly once and is never reversed. -/
def oneShotFadeIn : Prop :=
  ∀ tr : List ToggleEvent, ToggleEvent.enter ∈ tr →
    (fadeActions tr).count ToggleAction.play = 1 ∧
    ToggleAction.reverse ∉ fadeActions tr

/-! ### Scrubbed timeline seek (`gsap.to` with `scrub: true`, app.js
158-180 and 240-267).  With `scrub: true` the tween position is tied
directly to the trigger progress: seeking sets the position to
`progress * totalDuration`, regardless of the previous position. -/

/-- Position of a scrubbed timeline at a given scroll progress. -/
def scrubPosition (progress totalDuration : ℚ) : ℚ :=
  progress * totalDuration

/-- A scrub-driven seek: the new position replaces the old one and is
determined by progress alone. -/
def seekTimeline (totalDuration progress _oldPos : ℚ) : ℚ :=
  scrubPosition progress totalDuration

/-! ### Tab switching (app.js lines 288-302) -/

/-- A `.tab-button` element: its `data-target` attribute and whether its
class list holds `active`. -/
structure TabButton where
  dataTarget : String
  active : Bool
deriving DecidableEq, Repr

/-- A `.signup-form` element: its `id` and whether it is `active`. -/
structure SignupForm where
  id : String
  active : Bool
deriving DecidableEq, Repr

/-- The slice of the DOM the tab handler touches: the node lists returned
by `querySelectorAll('.tab-button')` and `querySelectorAll('.signup-form')`.
`document.getElementById` is modelled as lookup among the form ids, the
elements the targets name. -/
structure TabDom where
  tabButtons : List TabButton
  forms : List SignupForm
deriving DecidableEq, Repr

/-- `btn.classList.add('active')` for the clicked button (app.js line
298): the handler of button `k` sets that button's `active` flag. -/
def activateButton : Nat → List TabButton → List TabButton
  | _, [] => []
  | 0, b :: bs => { b with active := true } :: bs
  | k + 1, b :: bs => b :: activateButton k bs

/-- `document.getElementById(target).classList.add('active')` (app.js
line 300), restricted to the sign-up forms the targets name:
`getElementById` returns the first element with the given id, and `none`
(JavaScript `null`) when no element has it — in which case the `.classList`
access raises a TypeError. -/
def activateFirst (target : String) : List SignupForm → Option (List SignupForm)
  | [] => none
  | f :: fs =>
      if f.id = target then some ({ f with active := true } :: fs)
      else (activateFirst target fs).map (f :: ·)

/-- `btn.getAttribute('data-target')` of the clicked button `k`. -/
def targetOf (dom : TabDom) (k : Nat) : String :=
  ((dom.tabButtons.get? k).map TabButton.dataTarget).getD ""

/-- Click handler of tab button `k` (app.js lines 293-301), in source
order: remove `active` from every button, remove `active` from every form,
add `active` to the clicked button, read its `data-target`, then
`document.getElementById(target).classList.add('active')` — when the
lookup yields `null` this last step raises a TypeError, after the earlier
mutations have already happened.  The result pairs the error (if any)
with the DOM state left behind. -/
def clickTab (dom : TabDom) (k : Nat) : Option String × TabDom :=
  let buttonsCleared := dom.tabButtons.map fun b => { b with active := false }
  let formsCleared := dom.forms.map fun f => { f with active := false }
  let buttonsActivated := activateButton k buttonsCleared
  match activateFirst (targetOf dom k) formsCleared with
  | some formsActivated =>
      (none, { tabButtons := buttonsActivated, forms := formsActivated })
  | none =>
      (some "TypeError: cannot read classList of null",
       { tabButtons := buttonsActivated, forms := formsCleared })

/-- A sample sign-up DOM as the page ships it: two tab buttons targeting
the investor and pharmacist forms, with the pharmacist pair active. -/
def demoTabDom : TabDom :=
  { tabButtons := [⟨"investor-form", false⟩, ⟨"pharmacist-form", true⟩],
    forms := [⟨"investor-form", false⟩, ⟨"pharmacist-form", true⟩] }

/-- A sample sign-up DOM whose only button targets a missing id while its
only form is active. -/
def ghostTabDom : TabDom :=
  { tabButtons := [⟨"ghost-form", false⟩],
    forms := [⟨"investor-form", true⟩] }

/-! ### C1 — progress is NOT clamped -/

/-- C1 (counterexample): the claim says the computed progress equals
`clamp(scrollOffset / scrollableRange, 0, 1)` and in particular never
exceeds 1.  At scroll offset 3000 over a scrollable range of 1000 the
source computes progress 3, which exceeds 1 and differs from the clamp. -/
theorem C1_counterexample :
    (0 : ℚ) ≤ 3000 ∧ (0 : ℚ) < 1000 ∧
    computeProgress 3000 1000 = 3 ∧
    clamp01 (3000 / 1000) = 1 ∧
    computeProgress 3000 1000 ≠ clamp01 (3000 / 1000) ∧
    ¬ computeProgress 3000 1000 ≤ 1 := by
  refine ⟨by norm_num, by norm_num, ?_, ?_, ?_, ?_⟩ <;>
    simp [computeProgress, clamp01] <;> norm_num

/-- C1 (amended): for every scroll offset ≥ 0 with scrollable range > 0,
the progress computed by the scroll handler equals the unclamped ratio
`scrollOffset / scrollableRange`; it agrees with
`clamp(scrollOffset / scrollableRange, 0, 1)` exactly when the offset does
not exceed the range, and exceeds 1 whenever the offset exceeds the range. -/
theorem C1_progress_unclamped (scrollTop docHeight : ℚ)
    (hs : 0 ≤ scrollTop) (hd : 0 < docHeight) :
    computeProgress scrollTop docHeight = scrollTop / docHeight ∧
    (scrollTop ≤ docHeight →
      computeProgress scrollTop docHeight = clamp01 (scrollTop / docHeight)) ∧
    (docHeight < scrollTop → 1 < computeProgress scrollTop docHeight) := by
  have hform : computeProgress scrollTop docHeight = scrollTop / docHeight := by
    simp [computeProgress, hd]
  refine ⟨hform, ?_, ?_⟩
  · intro hle
    have h01 : 0 ≤ scrollTop / docHeight := div_nonneg hs hd.le
    have h1 : scrollTop / docHeight ≤ 1 := (div_le_one hd).mpr hle
    rw [hform, clamp01, min_eq_left h1, max_eq_right h01]
  · intro hlt
    rw [hform]
    exact (one_lt_div hd).mpr hlt

/-- C1 witness: the amended theorem at scroll offset 500, range 1000. -/
theorem C1_progress_unclamped_witness :
    (0 : ℚ) ≤ 500 ∧ (0 : ℚ) < 1000 ∧
    (computeProgress 500 1000 = 500 / 1000 ∧
    ((500 : ℚ) ≤ 1000 →
      computeProgress 500 1000 = clamp01 (500 / 1000)) ∧
    ((1000 : ℚ) < 500 → 1 < computeProgress 500 1000)) :=
  ⟨by norm_num, by norm_num,
    C1_progress_unclamped 500 1000 (by norm_num) (by norm_num)⟩

/-! ### C7 — degenerate pages give progress 0 -/

/-- C7: whenever the scrollable range (document height minus viewport
height) is zero or negative, the computed progress is exactly 0. -/
theorem C7_degenerate_progress_zero (scrollTop docHeight : ℚ)
    (hd : docHeight ≤ 0) :
    computeProgress scrollTop docHeight = 0 := by
  simp [computeProgress, not_lt.mpr hd]

/-- C7 witness: scroll offset 250 with scrollable range 0 gives progress 0. -/
theorem C7_degenerate_progress_zero_witness :
    (0 : ℚ) ≤ 0 ∧ computeProgress 250 0 = 0 :=
  ⟨le_rfl, C7_degenerate_progress_zero 250 0 le_rfl⟩

/-! ### C3 — missing elements make `updateScrollProgress` throw, not no-op -/

/-- C3 (counterexample): the claim says that with the track or dot element
absent, `updateScrollProgress` is a failure-free no-op.  With the track
element absent it instead raises a TypeError at
`progressContainer.clientHeight`, so the result is not the unchanged DOM. -/
theorem C3_counterexample :
    updateScrollProgress ⟨0, 2000, 800, none, some ⟨12, 0⟩⟩ =
      Except.error "TypeError: progressContainer is null" ∧
    updateScrollProgress ⟨0, 2000, 800, none, some ⟨12, 0⟩⟩ ≠
      Except.ok ⟨0, 2000, 800, none, some ⟨12, 0⟩⟩ := by
  constructor
  · rfl
  · simp [updateScrollProgress, computeProgress]

/-- C3 (amended): if the progress-indicator track element or the dot
element is absent, `updateScrollProgress` raises a TypeError instead of
completing; it never returns successfully, and in particular no DOM write
happens (the error carries no modified state). -/
theorem C3_missing_elements_throw (dom : ScrollDom)
    (h : dom.progressContainer = none ∨ dom.progressDot = none) :
    (∃ e, updateScrollProgress dom = Except.error e) ∧
    ∀ dom', updateScrollProgress dom ≠ Except.ok dom' := by
  rcases h with hc | hd
  · refine ⟨⟨"TypeError: progressContainer is null", ?_⟩, ?_⟩
    · simp [updateScrollProgress, hc]
    · intro dom'
      simp [updateScrollProgress, hc]
  · rcases hco : dom.progressContainer with _ | container
    · refine ⟨⟨"TypeError: progressContainer is null", ?_⟩, ?_⟩
      · simp [updateScrollProgress, hco]
      · intro dom'
        simp [updateScrollProgress, hco]
    · refine ⟨⟨"TypeError: progressDot is null", ?_⟩, ?_⟩
      · simp [updateScrollProgress, hco, hd]
      · intro dom'
        simp [updateScrollProgress, hco, hd]

/-- C3 witness: the amended theorem at a concrete DOM whose dot element is
absent. -/
theorem C3_missing_elements_throw_witness :
    ((⟨100, 2000, 800, some ⟨150, 0⟩, none⟩ : ScrollDom).progressContainer =
        none ∨
      (⟨100, 2000, 800, some ⟨150, 0⟩, none⟩ : ScrollDom).progressDot =
        none) ∧
    ((∃ e, updateScrollProgress ⟨100, 2000, 800, some ⟨150, 0⟩, none⟩ =
        Except.error e) ∧
      ∀ dom', updateScrollProgress ⟨100, 2000, 800, some ⟨150, 0⟩, none⟩ ≠
        Except.ok dom') :=
  ⟨Or.inr rfl, C3_missing_elements_throw _ (Or.inr rfl)⟩

/-! ### C6 — indicator position formula -/

/-- C6: with both elements present, `updateScrollProgress` sets the dot's
`style.top` to `progress * (trackHeight - dotHeight) + dotHeight / 2`;
consequently at progress 0 that value is `dotHeight / 2` and at progress 1
it is `trackHeight - dotHeight / 2`. -/
theorem C6_indicator_position (dom : ScrollDom) (container dot : IndicatorElem)
    (hc : dom.progressContainer = some container)
    (hd : dom.progressDot = some dot) :
    updateScrollProgress dom =
      Except.ok { dom with progressDot := some { dot with styleTop := yPos dom container dot } } ∧
    (0 : ℚ) * (container.clientHeight - dot.clientHeight)
        + dot.clientHeight / 2 = dot.clientHeight / 2 ∧
    (1 : ℚ) * (container.clientHeight - dot.clientHeight)
        + dot.clientHeight / 2
      = container.clientHeight - dot.clientHeight / 2 := by
  refine ⟨?_, by ring, by ring⟩
  simp [updateScrollProgress, hc, hd, yPos]

/-- C6 witness: the theorem at a concrete DOM (progress 1/2, track 100px,
dot 12px: the dot lands at 50px). -/
theorem C6_indicator_position_witness :
    updateScrollProgress ⟨500, 1800, 800, some ⟨100, 0⟩, some ⟨12, 0⟩⟩ =
      Except.ok ⟨500, 1800, 800, some ⟨100, 0⟩, some
        ⟨12, yPos ⟨500, 1800, 800, some ⟨100, 0⟩, some ⟨12, 0⟩⟩ ⟨100, 0⟩ ⟨12, 0⟩⟩⟩ ∧
    (0 : ℚ) * (100 - 12) + 12 / 2 = 12 / 2 ∧
    (1 : ℚ) * (100 - 12) + 12 / 2 = 100 - 12 / 2 :=
  C6_indicator_position ⟨500, 1800, 800, some ⟨100, 0⟩, some ⟨12, 0⟩⟩
    ⟨100, 0⟩ ⟨12, 0⟩ rfl rfl

/-! ### C2 — a boundary crossing leaves a single full-size object -/

/-- C2: firing `onEnter` or `onEnterBack` of section `i` tweens that
section's object to scale (1,1,1) and every other section's object to
(0,0,0) in the same update, so afterwards at most one of the six objects
has a non-zero target scale. -/
theorem C2_single_active_section (i : Fin 6) (s : SectionScales) :
    (onEnter i s i = ⟨1, 1, 1⟩ ∧ onEnterBack i s i = ⟨1, 1, 1⟩) ∧
    (∀ j, j ≠ i → onEnter i s j = ⟨0, 0, 0⟩ ∧ onEnterBack i s j = ⟨0, 0, 0⟩) ∧
    (∀ j k, onEnter i s j ≠ ⟨0, 0, 0⟩ → onEnter i s k ≠ ⟨0, 0, 0⟩ → j = k) ∧
    (∀ j k, onEnterBack i s j ≠ ⟨0, 0, 0⟩ → onEnterBack i s k ≠ ⟨0, 0, 0⟩ →
      j = k) := by
  refine ⟨⟨by simp [onEnter], by simp [onEnterBack]⟩, ?_, ?_, ?_⟩
  · intro j hj
    exact ⟨by simp [onEnter, hj], by simp [onEnterBack, hj]⟩
  · intro j k hj hk
    by_cases hji : j = i
    · by_cases hki : k = i
      · rw [hji, hki]
      · exact absurd (by simp [onEnter, hki]) hk
    · exact absurd (by simp [onEnter, hji]) hj
  · intro j k hj hk
    by_cases hji : j = i
    · by_cases hki : k = i
      · rw [hji, hki]
      · exact absurd (by simp [onEnterBack, hki]) hk
    · exact absurd (by simp [onEnterBack, hji]) hj

/-- C2 witness: the theorem at section 2 from a state where every object
is at scale (5,5,5). -/
theorem C2_single_active_section_witness :
    (onEnter 2 (fun _ => ⟨5, 5, 5⟩) 2 = ⟨1, 1, 1⟩ ∧
      onEnterBack 2 (fun _ => ⟨5, 5, 5⟩) 2 = ⟨1, 1, 1⟩) ∧
    (∀ j, j ≠ 2 → onEnter 2 (fun _ => ⟨5, 5, 5⟩) j = ⟨0, 0, 0⟩ ∧
      onEnterBack 2 (fun _ => ⟨5, 5, 5⟩) j = ⟨0, 0, 0⟩) ∧
    (∀ j k, onEnter 2 (fun _ => ⟨5, 5, 5⟩) j ≠ ⟨0, 0, 0⟩ →
      onEnter 2 (fun _ => ⟨5, 5, 5⟩) k ≠ ⟨0, 0, 0⟩ → j = k) ∧
    (∀ j k, onEnterBack 2 (fun _ => ⟨5, 5, 5⟩) j ≠ ⟨0, 0, 0⟩ →
      onEnterBack 2 (fun _ => ⟨5, 5, 5⟩) k ≠ ⟨0, 0, 0⟩ → j = k) :=
  C2_single_active_section 2 (fun _ => ⟨5, 5, 5⟩)

/-! ### C8 — onEnter and onEnterBack are the same transition -/

/-- C8: the `onEnter` and `onEnterBack` handlers of every section have
identical effect on every section object's scale targets. -/
theorem C8_enter_enterBack_equal : onEnter = onEnterBack := rfl

/-! ### C4 — the fade-in is not one-shot -/

/-- C4 (counterexample): the claim says the reveal fires exactly once per
section and never re-triggers or reverses.  With
`toggleActions: 'play none none reverse'`, the trajectory
enter, leaveBack, enter plays the reveal twice and reverses it once. -/
theorem C4_counterexample : ¬ oneShotFadeIn := by
  intro h
  have h2 := h [ToggleEvent.enter, ToggleEvent.leaveBack, ToggleEvent.enter]
    (by simp)
  exact absurd h2.1 (by decide)

/-- C4 (amended): the fade-in is not one-shot: over any scroll trajectory
it plays once per entry from above (`onEnter`) and reverses once per exit
back above the start (`onLeaveBack`); leaving downward and re-entering
from below do nothing.  So re-entering a section from above re-triggers
the reveal, and scrolling back above it reverses the reveal. -/
theorem C4_fade_replays (tr : List ToggleEvent) :
    (fadeActions tr).count ToggleAction.play = tr.count ToggleEvent.enter ∧
    (fadeActions tr).count ToggleAction.reverse =
      tr.count ToggleEvent.leaveBack := by
  induction tr with
  | nil => simp [fadeActions]
  | cons e t ih =>
    have hcons : fadeActions (e :: t) = sectionFadeAction e :: fadeActions t := rfl
    cases e <;>
      simp [hcons, List.count_cons, ih.1, ih.2, sectionFadeAction]

/-! ### C5 — scrubbed seek is monotone and history-free -/

/-- C5: for progress values p1 < p2 in [0,1] and a non-negative total
duration, the scrubbed seek position for p1 is at most that for p2, the
position is exactly progress times total duration, and the position
reached depends only on progress, never on the previous position — so
scrolling back to a previous progress restores exactly the previous
state. -/
theorem C5_seek_monotone (d p1 p2 old1 old2 : ℚ)
    (hd : 0 ≤ d) (_h0 : 0 ≤ p1) (h : p1 < p2) (_h1 : p2 ≤ 1) :
    seekTimeline d p1 old1 ≤ seekTimeline d p2 old2 ∧
    seekTimeline d p1 old1 = p1 * d ∧
    seekTimeline d p2 old2 = p2 * d ∧
    (∀ old3, seekTimeline d p1 old3 = seekTimeline d p1 old1) := by
  refine ⟨?_, rfl, rfl, fun old3 => rfl⟩
  exact mul_le_mul_of_nonneg_right h.le hd

/-- C5 witness: the theorem with total duration 10 and progress values
1/4 < 3/4, from two different previous positions. -/
theorem C5_seek_monotone_witness :
    seekTimeline 10 (1 / 4) 0 ≤ seekTimeline 10 (3 / 4) 5 ∧
    seekTimeline 10 (1 / 4) 0 = 1 / 4 * 10 ∧
    seekTimeline 10 (3 / 4) 5 = 3 / 4 * 10 ∧
    (∀ old3, seekTimeline 10 (1 / 4) old3 = seekTimeline 10 (1 / 4) 0) :=
  C5_seek_monotone 10 (1 / 4) (3 / 4) 0 5 (by norm_num) (by norm_num)
    (by norm_num) (by norm_num)

/-! ### Helper lemmas for the tab-switching handler -/

/-- `getElementById` finds nothing exactly when no form has the id. -/
theorem activateFirst_eq_none (t : String) (l : List SignupForm) :
    activateFirst t l = none ↔ ∀ f ∈ l, f.id ≠ t := by
  induction l with
  | nil => simp [activateFirst]
  | cons f fs ih =>
    by_cases h : f.id = t
    · simp [activateFirst, h]
    · simp [activateFirst, h, ih, Option.map_eq_none]

/-- Activating the first form with the target id in an all-inactive list
leaves exactly one active form, and it carries the target id. -/
theorem activateFirst_spec (t : String) (l l' : List SignupForm)
    (hl : ∀ f ∈ l, f.active = false)
    (h : activateFirst t l = some l') :
    l'.countP (fun f => f.active) = 1 ∧
    ∀ f ∈ l', f.active = true → f.id = t := by
  induction l generalizing l' with
  | nil => simp [activateFirst] at h
  | cons f fs ih =>
    by_cases hid : f.id = t
    · rw [activateFirst, if_pos hid, Option.some_inj] at h
      subst h
      have hfs : fs.countP (fun f => f.active) = 0 :=
        List.countP_eq_zero.mpr fun g hg => by
          simp [hl g (List.mem_cons_of_mem _ hg)]
      refine ⟨by simp [List.countP_cons, hfs], ?_⟩
      intro g hg hact
      rcases List.mem_cons.mp hg with rfl | hg'
      · exact hid
      · exact absurd hact (by simp [hl g (List.mem_cons_of_mem _ hg')])
    · rw [activateFirst, if_neg hid] at h
      rcases Option.map_eq_some.mp h with ⟨fs', hfs', rfl⟩
      have ihh := ih fs' (fun g hg => hl g (List.mem_cons_of_mem _ hg)) hfs'
      have hf : f.active = false := hl f (List.mem_cons_self f fs)
      refine ⟨by simp [List.countP_cons, hf, ihh.1], ?_⟩
      intro g hg hact
      rcases List.mem_cons.mp hg with rfl | hg'
      · exact absurd hact (by simp [hf])
      · exact ihh.2 g hg' hact

/-- Activating the clicked button in an all-inactive list leaves exactly
one active button. -/
theorem activateButton_countP (k : Nat) (l : List TabButton)
    (hl : ∀ b ∈ l, b.active = false) (hk : k < l.length) :
    (activateButton k l).countP (fun b => b.active) = 1 := by
  induction l generalizing k with
  | nil => simp at hk
  | cons b bs ih =>
    cases k with
    | zero =>
      have hbs : bs.countP (fun b => b.active) = 0 :=
        List.countP_eq_zero.mpr fun g hg => by
          simp [hl g (List.mem_cons_of_mem _ hg)]
      simp [activateButton, List.countP_cons, hbs]
    | succ k =>
      have hb : b.active = false := hl b (List.mem_cons_self b bs)
      simp [activateButton, List.countP_cons, hb,
        ih k (fun g hg => hl g (List.mem_cons_of_mem _ hg))
          (Nat.lt_of_succ_lt_succ hk)]

/-- Element-wise description of `activateButton`. -/
theorem activateButton_get (k i : Nat) (l : List TabButton) :
    (activateButton k l).get? i =
      if i = k then (l.get? i).map (fun b => { b with active := true })
      else l.get? i := by
  induction l generalizing k i with
  | nil => simp [activateButton]
  | cons b bs ih =>
    cases k with
    | zero =>
      cases i with
      | zero => simp [activateButton]
      | succ i => simp [activateButton]
    | succ k =>
      cases i with
      | zero => simp [activateButton]
      | succ i => simpa [activateButton] using ih k i

/-! ### C9 — a tab click activates exactly one panel -/

/-- C9: when the clicked button exists and its data-target names an
existing form panel, the click handler succeeds and leaves exactly one
form active — a form with the target id — and exactly one button active,
namely the clicked one, regardless of the prior class state. -/
theorem C9_tab_click_single_active (dom : TabDom) (k : Nat)
    (hk : k < dom.tabButtons.length)
    (hfound : ∃ f ∈ dom.forms, f.id = targetOf dom k) :
    (clickTab dom k).1 = none ∧
    (clickTab dom k).2.forms.countP (fun f => f.active) = 1 ∧
    (∀ f ∈ (clickTab dom k).2.forms, f.active = true →
      f.id = targetOf dom k) ∧
    (clickTab dom k).2.tabButtons.countP (fun b => b.active) = 1 ∧
    (∀ i b, (clickTab dom k).2.tabButtons.get? i = some b →
      (b.active = true ↔ i = k)) := by
  have hclear : ∀ g ∈ (dom.forms.map fun f => { f with active := false }),
      g.active = false := by
    intro g hg
    rcases List.mem_map.mp hg with ⟨g0, _, rfl⟩
    rfl
  obtain ⟨l', hl'⟩ : ∃ l',
      activateFirst (targetOf dom k)
        (dom.forms.map fun f => { f with active := false }) = some l' := by
    rcases hopt : activateFirst (targetOf dom k)
        (dom.forms.map fun f => { f with active := false }) with _ | l'
    · rcases hfound with ⟨f, hf, hid⟩
      have hmem : ({ f with active := false } : SignupForm) ∈
          (dom.forms.map fun g => { g with active := false }) :=
        List.mem_map.mpr ⟨f, hf, rfl⟩
      have hne := (activateFirst_eq_none _ _).mp hopt _ hmem
      exact absurd hid hne
    · exact ⟨l', hopt⟩
  have hspec := activateFirst_spec (targetOf dom k) _ l' hclear hl'
  have hbclear : ∀ g ∈ (dom.tabButtons.map fun b => { b with active := false }),
      g.active = false := by
    intro g hg
    rcases List.mem_map.mp hg with ⟨g0, _, rfl⟩
    rfl
  have hbk : k < (dom.tabButtons.map fun b => { b with active := false }).length := by
    simpa using hk
  refine ⟨?_, ?_, ?_, ?_, ?_⟩
  · simp [clickTab, hl']
  · simpa [clickTab, hl'] using hspec.1
  · simpa [clickTab, hl'] using hspec.2
  · simpa [clickTab, hl'] using activateButton_countP k _ hbclear hbk
  · intro i b
    simp only [clickTab, hl']
    intro hb
    by_cases hik : i = k
    · subst hik
      rw [activateButton_get, if_pos rfl] at hb
      rcases Option.map_eq_some.mp hb with ⟨b0, _, rfl⟩
      simp
    · rw [activateButton_get, if_neg hik] at hb
      have hmem : b ∈ (dom.tabButtons.map fun b => { b with active := false }) :=
        List.get?_mem hb
      rcases List.mem_map.mp hmem with ⟨b0, _, rfl⟩
      simp [hik]

/-- C9 witness: the theorem on a DOM with two buttons and two forms,
clicking button 0 (target `investor-form`) while button 1 and form 1 were
active beforehand. -/
theorem C9_tab_click_single_active_witness :
    0 < demoTabDom.tabButtons.length ∧
    ((clickTab demoTabDom 0).1 = none ∧
    (clickTab demoTabDom 0).2.forms.countP (fun f => f.active) = 1 ∧
    (∀ f ∈ (clickTab demoTabDom 0).2.forms, f.active = true →
      f.id = targetOf demoTabDom 0) ∧
    (clickTab demoTabDom 0).2.tabButtons.countP (fun b => b.active) = 1 ∧
    (∀ i b, (clickTab demoTabDom 0).2.tabButtons.get? i = some b →
      (b.active = true ↔ i = 0))) :=
  ⟨by decide, C9_tab_click_single_active demoTabDom 0 (by decide)
    ⟨⟨"investor-form", false⟩, by simp [demoTabDom], by simp [demoTabDom, targetOf]⟩⟩

/-! ### C10 — a dangling data-target aborts the handler mid-way -/

/-- C10: when the clicked button's data-target matches no form id, the
handler raises a TypeError part-way through: the `active` class has
already been stripped from every button and every form (and added to the
clicked button), so the resulting state has zero active panels instead of
the prior state. -/
theorem C10_dangling_target_not_atomic (dom : TabDom) (k : Nat)
    (hnone : ∀ f ∈ dom.forms, f.id ≠ targetOf dom k) :
    ((clickTab dom k).1).isSome = true ∧
    (∀ f ∈ (clickTab dom k).2.forms, f.active = false) ∧
    (clickTab dom k).2.forms = (dom.forms.map fun f => { f with active := false }) ∧
    (clickTab dom k).2.tabButtons =
      activateButton k (dom.tabButtons.map fun b => { b with active := false }) := by
  have hcleared : ∀ g ∈ (dom.forms.map fun f => { f with active := false }),
      g.id ≠ targetOf dom k := by
    intro g hg
    rcases List.mem_map.mp hg with ⟨g0, hg0, rfl⟩
    exact hnone g0 hg0
  have hmatch : activateFirst (targetOf dom k)
      (dom.forms.map fun f => { f with active := false }) = none :=
    (activateFirst_eq_none _ _).mpr hcleared
  refine ⟨by simp [clickTab, hmatch], ?_, by simp [clickTab, hmatch],
    by simp [clickTab, hmatch]⟩
  simp only [clickTab, hmatch]
  intro f hf
  rcases List.mem_map.mp hf with ⟨f0, _, rfl⟩
  rfl

/-- C10 witness: a DOM whose only button targets the missing id
`ghost-form` while the only form (`investor-form`) was active; the click
errors and leaves zero panels active. -/
theorem C10_dangling_target_not_atomic_witness :
    ghostTabDom.forms.countP (fun f => f.active) = 1 ∧
    (((clickTab ghostTabDom 0).1).isSome = true ∧
    (∀ f ∈ (clickTab ghostTabDom 0).2.forms, f.active = false) ∧
    (clickTab ghostTabDom 0).2.forms =
      (ghostTabDom.forms.map fun f => { f with active := false }) ∧
    (clickTab ghostTabDom 0).2.tabButtons =
      activateButton 0 (ghostTabDom.tabButtons.map fun b =>
        { b with active := false })) :=
  ⟨by decide, C10_dangling_target_not_atomic ghostTabDom 0
    (by
      intro f hf
      rcases List.mem_cons.mp hf with rfl | h
      · simp [ghostTabDom, targetOf]
      · simp [ghostTabDom] at h)⟩

end PharmaConnect
